import Mathlib

/-!
Shallow embedding of the terminal state machine of `src/term.rs`
(the `Term` type and its ANSI handler implementation).

The repository's `grid.rs`, `index.rs` and `ansi.rs` are not under `src/`;
the `Grid` type, the saturating `Line`/`Column` arithmetic and the `ansi`
enums they define are modelled from the spec (sections 3, 4.A, 4.C and the
end-to-end scenarios of section 8).  Everything else is translated from
`src/src/term.rs`.

Machine integers: `Line`/`Column` wrap an unsigned integer with saturating
subtraction; they are embedded as `Nat`, whose subtraction is saturating.
Pixel sizes are `f32` in the source; only their truncated quotients
(line/column counts) matter to any claim, so `SizeInfo` carries natural
numbers and truncating float division becomes `Nat` floor division.

Fallible operations (Rust panics and out-of-bounds aborts) return
`Option`: `none` models an abort.
-/

/-- RGB color triple (`Rgb` in the source); `Default::default()` is black. -/
structure Rgb where
  r : Nat
  g : Nat
  b : Nat
deriving DecidableEq, Repr

instance : Inhabited Rgb := ⟨⟨0, 0, 0⟩⟩

/-- Cell attribute flags (`cell::Flags` bitflags: INVERSE, BOLD, ITALIC,
UNDERLINE), embedded as one `Bool` per bit. -/
structure Flags where
  inverse : Bool
  bold : Bool
  italic : Bool
  underline : Bool
deriving DecidableEq, Repr

/-- `Flags::empty()`. -/
def Flags.empty : Flags := ⟨false, false, false, false⟩

/-- One grid cell (`cell::Cell`): character, colors, flags. -/
structure Cell where
  c : Char
  fg : Rgb
  bg : Rgb
  flags : Flags
deriving DecidableEq, Repr

/-- `Cell::new(c)`: given character, default colors, empty flags. -/
def Cell.new (c : Char) : Cell :=
  { c := c, fg := default, bg := default, flags := Flags.empty }

/-- Terminal mode bits (`mode::TermMode` bitflags). -/
structure TermMode where
  show_cursor : Bool
  app_cursor : Bool
  app_keypad : Bool
deriving DecidableEq, Repr

/-- `TermMode::default()` is `SHOW_CURSOR`. -/
def TermMode.default : TermMode := ⟨true, false, false⟩

/-- Modelled from the spec: the `Cursor` of the missing `index.rs` —
`{ line: Line, col: Column }`, defaulting to the origin. -/
structure Cursor where
  line : Nat
  col : Nat
deriving DecidableEq, Repr

instance : Inhabited Cursor := ⟨⟨0, 0⟩⟩

/-- Modelled from the spec: a half-open `Range<Line>` (missing `index.rs`),
`[start, stop)`. -/
structure LineRange where
  start : Nat
  stop : Nat
deriving DecidableEq, Repr

/-- `Range::contains`: `start ≤ x < stop`. -/
def LineRange.contains (r : LineRange) (x : Nat) : Prop :=
  r.start ≤ x ∧ x < r.stop

instance (r : LineRange) (x : Nat) : Decidable (r.contains x) :=
  inferInstanceAs (Decidable (_ ∧ _))

/-- Terminal size info (`SizeInfo`): pixel dimensions and cell metrics. -/
structure SizeInfo where
  width : Nat
  height : Nat
  cell_width : Nat
  cell_height : Nat
deriving DecidableEq, Repr

/-- `SizeInfo::lines()`: truncated `height / cell_height`. -/
def SizeInfo.lines (s : SizeInfo) : Nat := s.height / s.cell_height

/-- `SizeInfo::cols()`: truncated `width / cell_width`. -/
def SizeInfo.cols (s : SizeInfo) : Nat := s.width / s.cell_width

/-- Modelled from the spec: the missing `grid.rs` `Grid<Cell>` — a
`lines × cols` array of cells, embedded as dimensions plus a total cell
function (cells outside the dimensions are phantom and never observed by
the in-bounds claims). -/
structure Grid where
  lines : Nat
  cols : Nat
  cell : Nat → Nat → Cell

/-- Modelled from the spec: `Grid::new(lines, cols, template)` fills every
cell with the template. -/
def Grid.new (lines cols : Nat) (template : Cell) : Grid :=
  { lines := lines, cols := cols, cell := fun _ _ => template }

/-- Modelled from the spec: writing one cell (`grid[&cursor] = v`). -/
def Grid.setCell (g : Grid) (i j : Nat) (v : Cell) : Grid :=
  { g with cell := fun i' j' => if i' = i ∧ j' = j then v else g.cell i' j' }

/-- Modelled from the spec: `clear_region(s..e, |c| c.reset(&template))` —
every cell of rows `[s, e)` becomes the template. -/
def Grid.clear_region (g : Grid) (s e : Nat) (template : Cell) : Grid :=
  { g with cell := fun i j => if s ≤ i ∧ i < e then template else g.cell i j }

/-- Modelled from the spec: `clear(|c| c.reset(&template))` on the whole grid. -/
def Grid.clearAll (g : Grid) (template : Cell) : Grid :=
  { g with cell := fun _ _ => template }

/-- Modelled from the spec: `Grid::swap_lines(a, b)`. -/
def Grid.swapRows (g : Grid) (a b : Nat) : Grid :=
  { g with cell := fun i j =>
      if i = a then g.cell b j else if i = b then g.cell a j else g.cell i j }

/-- Modelled from the spec: `Grid::scroll_up(s..e, n)` swaps each row `i`
of `[s, e)` with row `i + n`, in ascending order (`k` counts the remaining
rows).  Pinned by §4.F ("clear first, then scroll the region downstream of
origin+n into place") and the end-to-end scenarios 2 and 3 of §8. -/
def Grid.scrollUpAux (n s : Nat) : Grid → Nat → Grid
  | g, 0 => g
  | g, k + 1 => Grid.scrollUpAux n (s + 1) (g.swapRows s (s + n)) k

/-- Modelled from the spec: `Grid::scroll_up(region, positions)`. -/
def Grid.scrollUp (g : Grid) (s e n : Nat) : Grid :=
  Grid.scrollUpAux n s g (e - s)

/-- Modelled from the spec: `Grid::scroll_down(s..e, n)` swaps each row `i`
of `[s, e)` with row `i - n`, in descending order. -/
def Grid.scrollDownAux (n s : Nat) : Grid → Nat → Grid
  | g, 0 => g
  | g, k + 1 => Grid.scrollDownAux n s (g.swapRows (s + k) (s + k - n)) k

/-- Modelled from the spec: `Grid::scroll_down(region, positions)`. -/
def Grid.scrollDown (g : Grid) (s e n : Nat) : Grid :=
  Grid.scrollDownAux n s g (e - s)

/-- Modelled from the spec: `Grid::resize(lines, cols, template)` preserves
top-left content, filling new rows (at the bottom) and new columns (at the
right) with the template; no reflow. -/
def Grid.resize (g : Grid) (lines cols : Nat) (template : Cell) : Grid :=
  { lines := lines, cols := cols,
    cell := fun i j => if i < g.lines ∧ j < g.cols then g.cell i j else template }

/-- `term.rs` free function `limit(val, min, max)`: coerce `val` to be
between `lo` and `hi`. -/
def limit (val lo hi : Nat) : Nat :=
  if val < lo then lo else if hi < val then hi else val

/-- `TAB_SPACES`. -/
def TAB_SPACES : Nat := 8

/-- The tab-stop vector built by `Term::new` and `Term::resize`:
`tabs[i] = (i % TAB_SPACES == 0)`, then `tabs[0] = false`. -/
def tabsList (cols : Nat) : List Bool :=
  (((List.range cols).map fun i => decide (i % TAB_SPACES = 0)).set 0 false)

/-- Modelled from the spec: the subset of `ansi::Attr` (missing `ansi.rs`)
handled by `Term::terminal_attribute`; `Other` stands for the ignored rest.
Named colors index the 16-entry palette. -/
inductive Attr where
  | DefaultForeground
  | DefaultBackground
  | Foreground (named_color : Fin 16)
  | Background (named_color : Fin 16)
  | ForegroundSpec (rgb : Rgb)
  | BackgroundSpec (rgb : Rgb)
  | Reset
  | Reverse
  | CancelReverse
  | Bold
  | CancelBoldDim
  | Italic
  | CancelItalic
  | Underscore
  | CancelUnderline
  | Other
deriving DecidableEq

/-- Modelled from the spec: `ansi::LineClearMode`. -/
inductive LineClearMode where
  | Right
  | Left
  | All
deriving DecidableEq

/-- Modelled from the spec: `ansi::ClearMode` (`Above` is unsupported and
aborts in `Term::clear_screen`). -/
inductive ClearMode where
  | Below
  | All
  | Above
deriving DecidableEq

/-- Modelled from the spec: the subset of `ansi::Mode` handled by
`Term::set_mode` / `Term::unset_mode`. -/
inductive AnsiMode where
  | SwapScreenAndSetRestoreCursor
  | ShowCursor
  | CursorKeys
  | OtherMode
deriving DecidableEq

/-- The terminal state (`Term`).  The `tty` handle is external I/O and is
dropped from the embedding (its `resize` forwarding has no effect on any
field below). -/
structure Term where
  grid : Grid
  alt_grid : Grid
  alt : Bool
  cursor : Cursor
  alt_cursor : Cursor
  fg : Rgb
  bg : Rgb
  tabs : List Bool
  mode : TermMode
  scroll_region : LineRange
  size_info : SizeInfo
  template_cell : Cell
  empty_cell : Cell
  colors : Fin 16 → Rgb
  dirty : Bool

/-- `Term::new(config, width, height, cell_width, cell_height)`.  The
config contributes the default fg/bg colors and the 16-color palette.
`tabs[0] = false` panics when the column count is zero (`none`). -/
def Term.new (width height cell_width cell_height : Nat)
    (fg bg : Rgb) (colors : Fin 16 → Rgb) : Option Term :=
  let size : SizeInfo :=
    { width := width, height := height,
      cell_width := cell_width, cell_height := cell_height }
  let template : Cell := { c := ' ', fg := fg, bg := bg, flags := Flags.empty }
  let num_cols := size.cols
  let num_lines := size.lines
  let grid := Grid.new num_lines num_cols (Cell.new ' ')
  if num_cols = 0 then none else
  some
    { grid := grid
      alt_grid := grid
      alt := false
      cursor := default
      alt_cursor := default
      fg := fg
      bg := bg
      tabs := tabsList num_cols
      mode := TermMode.default
      scroll_region := { start := 0, stop := grid.lines }
      size_info := size
      template_cell := template
      empty_cell := template
      colors := colors
      dirty := true }

/-- `Term::scroll_up_relative(origin, lines)`: clear rows
`[origin, origin+n)` with the empty cell, then
`grid.scroll_up(origin..(scroll_region.end - n), n)`. -/
def Term.scroll_up_relative (t : Term) (origin n : Nat) : Term :=
  let template := t.empty_cell
  let g := t.grid.clear_region origin (origin + n) template
  let g := g.scrollUp origin (t.scroll_region.stop - n) n
  { t with grid := g }

/-- `Term::scroll_down_relative(origin, lines)`: clear rows
`[scroll_region.end - n, scroll_region.end)` with the empty cell, then
`grid.scroll_down((origin + n)..scroll_region.end, n)`. -/
def Term.scroll_down_relative (t : Term) (origin n : Nat) : Term :=
  let template := t.empty_cell
  let g := t.grid.clear_region (t.scroll_region.stop - n) t.scroll_region.stop template
  let g := g.scrollDown (origin + n) t.scroll_region.stop n
  { t with grid := g }

/-- Handler `scroll_up(lines)`: relative scroll from the region start. -/
def Term.scroll_up (t : Term) (n : Nat) : Term :=
  t.scroll_up_relative t.scroll_region.start n

/-- Handler `scroll_down(lines)`: relative scroll from the region start. -/
def Term.scroll_down (t : Term) (n : Nat) : Term :=
  t.scroll_down_relative t.scroll_region.start n

/-- Handler `linefeed`: scroll up by one at the last region line, otherwise
move the cursor down one line. -/
def Term.linefeed (t : Term) : Term :=
  if t.cursor.line + 1 = t.scroll_region.stop then
    t.scroll_up 1
  else
    { t with cursor := { t.cursor with line := t.cursor.line + 1 } }

/-- Handler `carriage_return`: column zero. -/
def Term.carriage_return (t : Term) : Term :=
  { t with cursor := { t.cursor with col := 0 } }

/-- Handler `input(c)`: wrap if pending, panic if the cursor fell off the
grid, write the template cell with character `c`, advance the column.
Out-of-bounds grid indexing aborts (`none`). -/
def Term.input (t : Term) (ch : Char) : Option Term :=
  let t :=
    if t.cursor.col = t.grid.cols then
      let t :=
        if t.scroll_region.stop ≤ t.cursor.line + 1 then t.linefeed
        else { t with cursor := { t.cursor with line := t.cursor.line + 1 } }
      { t with cursor := { t.cursor with col := 0 } }
    else t
  if t.cursor.line = t.grid.lines then none
  else if t.cursor.line < t.grid.lines ∧ t.cursor.col < t.grid.cols then
    some { t with
      grid := t.grid.setCell t.cursor.line t.cursor.col { t.template_cell with c := ch }
      cursor := { t.cursor with col := t.cursor.col + 1 } }
  else none

/-- Handler `goto(line, col)`. -/
def Term.goto (t : Term) (line col : Nat) : Term :=
  { t with cursor := { line := line, col := col } }

/-- Handler `goto_line(line)`. -/
def Term.goto_line (t : Term) (line : Nat) : Term :=
  { t with cursor := { t.cursor with line := line } }

/-- Handler `goto_col(col)`. -/
def Term.goto_col (t : Term) (col : Nat) : Term :=
  { t with cursor := { t.cursor with col := col } }

/-- Handler `move_up(lines)` (saturating). -/
def Term.move_up (t : Term) (lines : Nat) : Term :=
  { t with cursor := { t.cursor with line := t.cursor.line - lines } }

/-- Handler `move_down(lines)`. -/
def Term.move_down (t : Term) (lines : Nat) : Term :=
  { t with cursor := { t.cursor with line := t.cursor.line + lines } }

/-- Handler `move_forward(cols)`. -/
def Term.move_forward (t : Term) (cols : Nat) : Term :=
  { t with cursor := { t.cursor with col := t.cursor.col + cols } }

/-- Handler `move_backward(cols)` (saturating). -/
def Term.move_backward (t : Term) (cols : Nat) : Term :=
  { t with cursor := { t.cursor with col := t.cursor.col - cols } }

/-- Handler `backspace` (saturating decrement). -/
def Term.backspace (t : Term) : Term :=
  { t with cursor := { t.cursor with col := t.cursor.col - 1 } }

/-- The inner loop of `put_tab`: advance the column until it reaches
`num_cols` or a set tab stop (the source reads `tabs[col]` only for
`col < num_cols`, in bounds since `tabs` has length `num_cols`). -/
def nextStop (tabs : List Bool) (cols : Nat) (col : Nat) : Nat :=
  if h : col < cols ∧ tabs.getD col false = false then
    nextStop tabs cols (col + 1)
  else col
termination_by cols - col
decreasing_by exact Nat.sub_lt_sub_left h.1 (Nat.lt_succ_self col)

/-- The outer loop of `put_tab`: while `col < num_cols && count != 0`,
decrement the count and advance to the next stop. -/
def putTabGo (tabs : List Bool) (cols : Nat) : Nat → Nat → Nat
  | col, 0 => col
  | col, k + 1 =>
    if col < cols then putTabGo tabs cols (nextStop tabs cols col) k else col

/-- Handler `put_tab(count)`.  The source count is an `i64` supplied by the
parser from a non-negative numeric parameter; it is embedded as `Nat`. -/
def Term.put_tab (t : Term) (count : Nat) : Term :=
  { t with cursor :=
      { t.cursor with col := putTabGo t.tabs t.grid.cols t.cursor.col count } }

/-- Handler `swap_alt`: toggle `alt`, swap grids and cursors, and clear the
(new) active grid when entering the alternate screen. -/
def Term.swap_alt (t : Term) : Term :=
  let t1 := { t with
    alt := !t.alt
    grid := t.alt_grid
    alt_grid := t.grid
    cursor := t.alt_cursor
    alt_cursor := t.cursor }
  if t1.alt then { t1 with grid := t1.grid.clearAll t.empty_cell } else t1

/-- Handler `insert_blank_lines(lines)`. -/
def Term.insert_blank_lines (t : Term) (lines : Nat) : Term :=
  if t.scroll_region.contains t.cursor.line then
    t.scroll_down_relative t.cursor.line lines
  else t

/-- Handler `delete_lines(lines)`. -/
def Term.delete_lines (t : Term) (lines : Nat) : Term :=
  if t.scroll_region.contains t.cursor.line then
    t.scroll_up_relative t.cursor.line lines
  else t

/-- Handler `reverse_index`: scroll down by one at the region top,
otherwise move the cursor up one line (saturating). -/
def Term.reverse_index (t : Term) : Term :=
  if t.cursor.line = t.scroll_region.start then
    t.scroll_down 1
  else
    { t with cursor := { t.cursor with line := t.cursor.line - 1 } }

/-- Handler `erase_chars(count)`: reset cells
`[cursor.col, cursor.col + count)` of the current row to the empty cell.
The row slice `row[start..end]` aborts when `end` exceeds `num_cols`
(and row indexing aborts when the cursor line is out of bounds). -/
def Term.erase_chars (t : Term) (count : Nat) : Option Term :=
  let start := t.cursor.col
  let e := start + count
  if t.cursor.line < t.grid.lines ∧ e ≤ t.grid.cols then
    some { t with grid :=
      { t.grid with cell := fun i j =>
          if i = t.cursor.line ∧ start ≤ j ∧ j < e then t.empty_cell
          else t.grid.cell i j } }
  else none

/-- Handler `delete_chars(count)`: clamp the count to `num_cols`, shift the
cells right of the deleted span left, and blank the tail.  The slice
`line[end..]` aborts when `cursor.col + count` exceeds `num_cols`. -/
def Term.delete_chars (t : Term) (count : Nat) : Option Term :=
  let count := min count t.size_info.cols
  let start := t.cursor.col
  let e := start + count
  if t.cursor.line < t.grid.lines ∧ e ≤ t.size_info.cols then
    some { t with grid :=
      { t.grid with cell := fun i j =>
          if i = t.cursor.line then
            if start ≤ j ∧ j < t.size_info.cols - count then t.grid.cell i (j + count)
            else if t.size_info.cols - count ≤ j ∧ j < t.size_info.cols then t.empty_cell
            else t.grid.cell i j
          else t.grid.cell i j } }
  else none

/-- Handler `insert_blank(count)`: clamp the count to the remaining width,
shift the cells at and right of the cursor right, and blank the gap. -/
def Term.insert_blank (t : Term) (count : Nat) : Option Term :=
  let count := min count (t.size_info.cols - t.cursor.col)
  let source := t.cursor.col
  let destination := t.cursor.col + count
  if t.cursor.line < t.grid.lines ∧ destination ≤ t.size_info.cols then
    some { t with grid :=
      { t.grid with cell := fun i j =>
          if i = t.cursor.line then
            if source ≤ j ∧ j < destination then t.empty_cell
            else if destination ≤ j ∧ j < t.size_info.cols then t.grid.cell i (j - count)
            else t.grid.cell i j
          else t.grid.cell i j } }
  else none

/-- Handler `clear_line(mode)`: reset a span of the current row to the
empty cell; row indexing and slicing abort out of bounds. -/
def Term.clear_line (t : Term) (mode : LineClearMode) : Option Term :=
  if t.cursor.line < t.grid.lines then
    match mode with
    | LineClearMode.Right =>
      if t.cursor.col ≤ t.grid.cols then
        some { t with grid :=
          { t.grid with cell := fun i j =>
              if i = t.cursor.line ∧ t.cursor.col ≤ j then t.empty_cell
              else t.grid.cell i j } }
      else none
    | LineClearMode.Left =>
      if t.cursor.col + 1 ≤ t.grid.cols then
        some { t with grid :=
          { t.grid with cell := fun i j =>
              if i = t.cursor.line ∧ j < t.cursor.col + 1 then t.empty_cell
              else t.grid.cell i j } }
      else none
    | LineClearMode.All =>
      some { t with grid :=
        { t.grid with cell := fun i j =>
            if i = t.cursor.line then t.empty_cell else t.grid.cell i j } }
  else none

/-- Handler `clear_screen(mode)`: `Below` clears from the cursor line down,
`All` clears the whole grid, `Above` panics (`none`). -/
def Term.clear_screen (t : Term) (mode : ClearMode) : Option Term :=
  match mode with
  | ClearMode.Below =>
    if t.cursor.line ≤ t.grid.lines then
      some { t with grid := t.grid.clear_region t.cursor.line t.grid.lines t.empty_cell }
    else none
  | ClearMode.All => some { t with grid := t.grid.clearAll t.empty_cell }
  | ClearMode.Above => none

/-- Handler `terminal_attribute(attr)`: update the template cell. -/
def Term.terminal_attribute (t : Term) (attr : Attr) : Term :=
  match attr with
  | Attr.DefaultForeground => { t with template_cell := { t.template_cell with fg := t.fg } }
  | Attr.DefaultBackground => { t with template_cell := { t.template_cell with bg := t.bg } }
  | Attr.Foreground i => { t with template_cell := { t.template_cell with fg := t.colors i } }
  | Attr.Background i => { t with template_cell := { t.template_cell with bg := t.colors i } }
  | Attr.ForegroundSpec rgb => { t with template_cell := { t.template_cell with fg := rgb } }
  | Attr.BackgroundSpec rgb => { t with template_cell := { t.template_cell with bg := rgb } }
  | Attr.Reset =>
    { t with template_cell := { t.template_cell with fg := t.fg, bg := t.bg, flags := Flags.empty } }
  | Attr.Reverse =>
    { t with template_cell := { t.template_cell with flags := { t.template_cell.flags with inverse := true } } }
  | Attr.CancelReverse =>
    { t with template_cell := { t.template_cell with flags := { t.template_cell.flags with inverse := false } } }
  | Attr.Bold =>
    { t with template_cell := { t.template_cell with flags := { t.template_cell.flags with bold := true } } }
  | Attr.CancelBoldDim =>
    { t with template_cell := { t.template_cell with flags := { t.template_cell.flags with bold := false } } }
  | Attr.Italic =>
    { t with template_cell := { t.template_cell with flags := { t.template_cell.flags with italic := true } } }
  | Attr.CancelItalic =>
    { t with template_cell := { t.template_cell with flags := { t.template_cell.flags with italic := false } } }
  | Attr.Underscore =>
    { t with template_cell := { t.template_cell with flags := { t.template_cell.flags with underline := true } } }
  | Attr.CancelUnderline =>
    { t with template_cell := { t.template_cell with flags := { t.template_cell.flags with underline := false } } }
  | Attr.Other => t

/-- Handler `set_mode(mode)`. -/
def Term.set_mode (t : Term) (mode : AnsiMode) : Term :=
  match mode with
  | AnsiMode.SwapScreenAndSetRestoreCursor => t.swap_alt
  | AnsiMode.ShowCursor => { t with mode := { t.mode with show_cursor := true } }
  | AnsiMode.CursorKeys => { t with mode := { t.mode with app_cursor := true } }
  | AnsiMode.OtherMode => t

/-- Handler `unset_mode(mode)`. -/
def Term.unset_mode (t : Term) (mode : AnsiMode) : Term :=
  match mode with
  | AnsiMode.SwapScreenAndSetRestoreCursor => t.swap_alt
  | AnsiMode.ShowCursor => { t with mode := { t.mode with show_cursor := false } }
  | AnsiMode.CursorKeys => { t with mode := { t.mode with app_cursor := false } }
  | AnsiMode.OtherMode => t

/-- Handler `set_scrolling_region(region)`: set the region and go to the
origin. -/
def Term.set_scrolling_region (t : Term) (region : LineRange) : Term :=
  ({ t with scroll_region := region } : Term).goto 0 0

/-- Handler `set_keypad_application_mode`. -/
def Term.set_keypad_application_mode (t : Term) : Term :=
  { t with mode := { t.mode with app_keypad := true } }

/-- Handler `unset_keypad_application_mode`. -/
def Term.unset_keypad_application_mode (t : Term) : Term :=
  { t with mode := { t.mode with app_keypad := false } }

/-- `Term::resize(width, height)`: recompute dimensions, early-return when
unchanged, scroll to keep the cursor, resize both grids, clamp the cursor,
rebuild tabs (`tabs[0]` aborts when the new column count is zero), clear
from the cursor line down, and reset the scroll region. -/
def Term.resize (t : Term) (width height : Nat) : Option Term :=
  let size : SizeInfo :=
    { width := width, height := height,
      cell_width := t.size_info.cell_width, cell_height := t.size_info.cell_height }
  let old_cols := t.size_info.cols
  let old_lines := t.size_info.lines
  let num_cols := size.cols
  let num_lines := size.lines
  let t := { t with size_info := size }
  if old_cols = num_cols ∧ old_lines = num_lines then some t else
  let t := { t with scroll_region := { start := 0, stop := t.grid.lines } }
  let t :=
    if num_lines ≤ t.cursor.line then
      let lines := t.cursor.line - num_lines + 1
      let t := t.scroll_up lines
      { t with cursor := { t.cursor with line := t.cursor.line - lines } }
    else t
  let t := { t with
    grid := t.grid.resize num_lines num_cols (Cell.new ' ')
    alt_grid := t.alt_grid.resize num_lines num_cols (Cell.new ' ') }
  let t := { t with cursor :=
    { line := limit t.cursor.line 0 num_lines, col := limit t.cursor.col 0 num_cols } }
  if num_cols = 0 then none else
  let t := { t with tabs := tabsList num_cols }
  let template := t.empty_cell
  let t := { t with
    grid := t.grid.clear_region t.cursor.line t.grid.lines template
    alt_grid := t.alt_grid.clear_region t.cursor.line t.alt_grid.lines template }
  some { t with scroll_region := { start := 0, stop := t.grid.lines } }

/-! ### Concrete fixtures for the end-to-end and counterexample theorems -/

/-- The 4×4 scenario run of §8: from the initial 4×4 state, input `A`, `B`,
carriage return, linefeed, then `C`, `D`. -/
def c1_run : Option Term :=
  (Term.new 4 4 1 1 default default fun _ => default).bind fun t =>
  (t.input 'A').bind fun t =>
  (t.input 'B').bind fun t =>
  ((t.carriage_return.linefeed).input 'C').bind fun t =>
  t.input 'D'

/-- A concrete reachable 4×4 terminal state (the result of `Term::new`
with 4×4 cells of unit metrics and an all-black palette). -/
def baseTerm : Term :=
  { grid := Grid.new 4 4 (Cell.new ' ')
    alt_grid := Grid.new 4 4 (Cell.new ' ')
    alt := false
    cursor := default
    alt_cursor := default
    fg := default
    bg := default
    tabs := tabsList 4
    mode := TermMode.default
    scroll_region := { start := 0, stop := 4 }
    size_info := { width := 4, height := 4, cell_width := 1, cell_height := 1 }
    template_cell := { c := ' ', fg := default, bg := default, flags := Flags.empty }
    empty_cell := { c := ' ', fg := default, bg := default, flags := Flags.empty }
    colors := fun _ => default
    dirty := true }

/-- Read the characters of row `i` of a 4-column grid. -/
def rowChars (g : Grid) (i : Nat) : List Char :=
  [(g.cell i 0).c, (g.cell i 1).c, (g.cell i 2).c, (g.cell i 3).c]

/-- A 4×4 state whose rows carry distinct marker characters in column 0. -/
def c2Term : Term :=
  { baseTerm with grid :=
      (((baseTerm.grid.setCell 0 0 (Cell.new 'a')).setCell 1 0
            (Cell.new 'b')).setCell 2 0 (Cell.new 'c')).setCell 3 0 (Cell.new 'd') }

/-- A 4×4 state whose dirty flag has been cleared (as the renderer does
between frames). -/
def c3Term : Term :=
  { baseTerm with dirty := false }

/-- A reachable state on the alternate screen holding a non-blank cell:
enter the alternate screen, then input `X`. -/
def c4_run : Option Term :=
  baseTerm.swap_alt.input 'X'

/-- A 4×4 state with the cursor at line 0, column 2. -/
def c6Term : Term :=
  { baseTerm with cursor := { line := 0, col := 2 } }

/-- A 4×4 state with the cursor on the last line of the scroll region. -/
def c5Term : Term :=
  { baseTerm with cursor := { line := 3, col := 0 } }

/-- A 4×16 state with the cursor sitting on the tab stop at column 8. -/
def c10Term : Term :=
  { baseTerm with
      grid := Grid.new 4 16 (Cell.new ' ')
      alt_grid := Grid.new 4 16 (Cell.new ' ')
      tabs := tabsList 16
      cursor := { line := 0, col := 8 }
      size_info := { width := 16, height := 4, cell_width := 1, cell_height := 1 } }

/-- The tab-stop invariant of the claim: `tabs` has length `num_cols`,
`tabs[0]` is `false`, and for `0 < i < num_cols`, `tabs[i]` is `true`
exactly when `i % 8 = 0`. -/
def TabsProps (t : Term) : Prop :=
  t.tabs.length = t.grid.cols ∧ t.tabs.getD 0 true = false ∧
    ∀ i, i < t.grid.cols → (0 < i → t.tabs.getD i false = decide (i % 8 = 0))

instance (t : Term) : Decidable (TabsProps t) :=
  inferInstanceAs (Decidable (_ ∧ _ ∧ _))

theorem c1_sanity : (Term.new 4 4 1 1 default default fun _ => default).isSome = true := by
  decide

/-- The §8 scenario-1 run succeeds, leaves row 0 = `AB  `, row 1 = `CD  `,
and the cursor at line 1, column 2. -/
theorem c1_scenario :
    c1_run.map (fun t => (rowChars t.grid 0, rowChars t.grid 1, t.cursor.line, t.cursor.col)) =
      some (['A', 'B', ' ', ' '], ['C', 'D', ' ', ' '], 1, 2) := by
  decide

/-! ### Row-scroll effect lemmas -/

theorem Grid.swapRows_lines (g : Grid) (a b : Nat) : (g.swapRows a b).lines = g.lines := rfl

theorem Grid.scrollUpAux_lines (n : Nat) :
    ∀ (k s : Nat) (g : Grid), (Grid.scrollUpAux n s g k).lines = g.lines := by
  intro k
  induction k with
  | zero => intro s g; rfl
  | succ k ih => intro s g; exact ih (s + 1) _

theorem Grid.scrollUpAux_cols (n : Nat) :
    ∀ (k s : Nat) (g : Grid), (Grid.scrollUpAux n s g k).cols = g.cols := by
  intro k
  induction k with
  | zero => intro s g; rfl
  | succ k ih => intro s g; exact ih (s + 1) _

theorem Grid.scrollDownAux_lines (n : Nat) :
    ∀ (k s : Nat) (g : Grid), (Grid.scrollDownAux n s g k).lines = g.lines := by
  intro k
  induction k with
  | zero => intro s g; rfl
  | succ k ih => intro s g; exact ih s _

theorem Grid.scrollDownAux_cols (n : Nat) :
    ∀ (k s : Nat) (g : Grid), (Grid.scrollDownAux n s g k).cols = g.cols := by
  intro k
  induction k with
  | zero => intro s g; rfl
  | succ k ih => intro s g; exact ih s _

/-- Net effect of the ascending swap loop of `Grid::scroll_up`, provided
the `n` rows starting at `s` all hold the constant row `r` (the caller
cleared them): rows `[s, s+k)` receive the rows `n` below, the `n` rows
after them receive the constant, the rest is untouched. -/
theorem Grid.scrollUpAux_cell (n : Nat) (r : Nat → Cell) :
    ∀ (k s : Nat) (g : Grid),
      (∀ i, s ≤ i → i < s + n → ∀ j, g.cell i j = r j) →
      ∀ i j, (Grid.scrollUpAux n s g k).cell i j =
        if s ≤ i ∧ i < s + k then g.cell (i + n) j
        else if s + k ≤ i ∧ i < s + k + n then r j
        else g.cell i j := by
  intro k
  induction k with
  | zero =>
    intro s g hconst i j
    simp only [Grid.scrollUpAux]
    split_ifs with h1 h2
    · omega
    · exact hconst i h2.1 (by omega) j
    · rfl
  | succ k ih =>
    intro s g hconst i j
    have hconst' : ∀ i', s + 1 ≤ i' → i' < s + 1 + n →
        ∀ j', (g.swapRows s (s + n)).cell i' j' = r j' := by
      intro i' h1 h2 j'
      simp only [Grid.swapRows]
      split_ifs with e1 e2
      · omega
      · exact hconst s (Nat.le_refl s) (by omega) j'
      · exact hconst i' (by omega) (by omega) j'
    have := ih (s + 1) (g.swapRows s (s + n)) hconst' i j
    rw [show Grid.scrollUpAux n s g (k + 1) =
          Grid.scrollUpAux n (s + 1) (g.swapRows s (s + n)) k from rfl, this]
    simp only [Grid.swapRows]
    split_ifs <;> first | rfl | omega | (subst_vars; rfl)

/-- Net effect of the descending swap loop of `Grid::scroll_down`,
provided the `n` rows ending at `s + k` all hold the constant row `r`:
rows `[s, s+k)` receive the rows `n` above, the `n` rows before `s`
receive the constant, the rest is untouched. -/
theorem Grid.scrollDownAux_cell (n : Nat) (r : Nat → Cell) :
    ∀ (k s : Nat) (g : Grid), n ≤ s →
      (∀ i, i < s + k → s + k ≤ i + n → ∀ j, g.cell i j = r j) →
      ∀ i j, (Grid.scrollDownAux n s g k).cell i j =
        if s ≤ i ∧ i < s + k then g.cell (i - n) j
        else if s - n ≤ i ∧ i < s then r j
        else g.cell i j := by
  intro k
  induction k with
  | zero =>
    intro s g hns hconst i j
    simp only [Grid.scrollDownAux]
    split_ifs with h1 h2
    · omega
    · exact hconst i (by omega) (by omega) j
    · rfl
  | succ k ih =>
    intro s g hns hconst i j
    have hconst' : ∀ i', i' < s + k → s + k ≤ i' + n →
        ∀ j', (g.swapRows (s + k) (s + k - n)).cell i' j' = r j' := by
      intro i' h1 h2 j'
      simp only [Grid.swapRows]
      split_ifs with e1 e2
      · omega
      · exact hconst (s + k) (by omega) (by omega) j'
      · exact hconst i' (by omega) (by omega) j'
    have := ih s (g.swapRows (s + k) (s + k - n)) hns hconst' i j
    rw [show Grid.scrollDownAux n s g (k + 1) =
          Grid.scrollDownAux n s (g.swapRows (s + k) (s + k - n)) k from rfl, this]
    simp only [Grid.swapRows]
    split_ifs <;> first | rfl | omega | (subst_vars; rfl)

/-! ### Term-level scroll lemmas -/

theorem Term.scroll_up_region (t : Term) (n : Nat) :
    (t.scroll_up n).scroll_region = t.scroll_region := rfl

theorem Term.scroll_up_empty (t : Term) (n : Nat) :
    (t.scroll_up n).empty_cell = t.empty_cell := rfl

theorem Term.scroll_up_cursor (t : Term) (n : Nat) :
    (t.scroll_up n).cursor = t.cursor := rfl

/-- Pointwise effect of `Term::scroll_up_relative(origin, n)` when the
scrolled span fits inside the region: rows `[origin, end-n)` receive the
rows `n` below them, the bottom `n` rows of the region become the empty
cell, everything else is untouched. -/
theorem Term.scroll_up_relative_cell (t : Term) (origin n : Nat)
    (h : origin + n ≤ t.scroll_region.stop) (i j : Nat) :
    (t.scroll_up_relative origin n).grid.cell i j =
      if origin ≤ i ∧ i < t.scroll_region.stop - n then t.grid.cell (i + n) j
      else if t.scroll_region.stop - n ≤ i ∧ i < t.scroll_region.stop then t.empty_cell
      else t.grid.cell i j := by
  have hconst : ∀ i', origin ≤ i' → i' < origin + n → ∀ j',
      (t.grid.clear_region origin (origin + n) t.empty_cell).cell i' j' = t.empty_cell := by
    intro i' h1 h2 j'
    simp [Grid.clear_region, h1, h2]
  have hmain := Grid.scrollUpAux_cell n (fun _ => t.empty_cell)
      (t.scroll_region.stop - n - origin) origin
      (t.grid.clear_region origin (origin + n) t.empty_cell) hconst i j
  show (Grid.scrollUpAux n origin
      (t.grid.clear_region origin (origin + n) t.empty_cell)
      (t.scroll_region.stop - n - origin)).cell i j = _
  rw [hmain]
  simp only [Grid.clear_region]
  split_ifs <;> first | rfl | omega

/-- Pointwise effect of `Term::scroll_down_relative(origin, n)` when the
scrolled span fits inside the region: rows `[origin+n, end)` receive the
rows `n` above them, rows `[origin, origin+n)` become the empty cell,
everything else is untouched. -/
theorem Term.scroll_down_relative_cell (t : Term) (origin n : Nat)
    (h : origin + n ≤ t.scroll_region.stop) (i j : Nat) :
    (t.scroll_down_relative origin n).grid.cell i j =
      if origin + n ≤ i ∧ i < t.scroll_region.stop then t.grid.cell (i - n) j
      else if origin ≤ i ∧ i < origin + n then t.empty_cell
      else t.grid.cell i j := by
  have hconst : ∀ i', i' < origin + n + (t.scroll_region.stop - (origin + n)) →
      origin + n + (t.scroll_region.stop - (origin + n)) ≤ i' + n → ∀ j',
      (t.grid.clear_region (t.scroll_region.stop - n) t.scroll_region.stop
        t.empty_cell).cell i' j' = t.empty_cell := by
    intro i' h1 h2 j'
    simp only [Grid.clear_region]
    rw [if_pos (by omega)]
  have hmain := Grid.scrollDownAux_cell n (fun _ => t.empty_cell)
      (t.scroll_region.stop - (origin + n)) (origin + n)
      (t.grid.clear_region (t.scroll_region.stop - n) t.scroll_region.stop t.empty_cell)
      (by omega) hconst i j
  show (Grid.scrollDownAux n (origin + n)
      (t.grid.clear_region (t.scroll_region.stop - n) t.scroll_region.stop t.empty_cell)
      (t.scroll_region.stop - (origin + n))).cell i j = _
  rw [hmain]
  simp only [Grid.clear_region]
  split_ifs <;> first | rfl | omega

/-! ### C2: scroll_up then scroll_down round trip -/

/-- C2 counterexample: on a 4×4 state with region `[0, 4)` and `n = 1`
(so `0 < n` and `2 n < 4`, the claim's hypotheses), after
`scroll_up(1); scroll_down(1)` the bottom edge row of the region holds its
original contents, not the empty cell: the claim's "the edge rows become
blank" is false for the bottom rows. -/
theorem c2_counterexample :
    0 < 1 ∧ 2 * 1 < c2Term.scroll_region.stop - c2Term.scroll_region.start ∧
      ¬ ((c2Term.scroll_up 1).scroll_down 1).grid.cell 3 0 = c2Term.empty_cell := by
  decide

/-- C2 (amended): for every state and every `n` with `0 < n` and
`2 n < end - start`, `scroll_up(n); scroll_down(n)` leaves every cell of
the region outside the top `n` rows — including the bottom `n` rows —
with its original contents, and the top `n` rows become the empty cell. -/
theorem c2_amended (t : Term) (n i j : Nat) (h0 : 0 < n)
    (h2 : 2 * n < t.scroll_region.stop - t.scroll_region.start) :
    (t.scroll_region.start + n ≤ i → i < t.scroll_region.stop →
      ((t.scroll_up n).scroll_down n).grid.cell i j = t.grid.cell i j) ∧
    (t.scroll_region.start ≤ i → i < t.scroll_region.start + n →
      ((t.scroll_up n).scroll_down n).grid.cell i j = t.empty_cell) := by
  have hs : t.scroll_region.start + n ≤ t.scroll_region.stop := by omega
  have hdown := Term.scroll_down_relative_cell (t.scroll_up n)
      t.scroll_region.start n hs i j
  rw [show ((t.scroll_up n).scroll_down_relative t.scroll_region.start n)
        = (t.scroll_up n).scroll_down n from rfl] at hdown
  constructor
  · intro hge hlt
    rw [hdown, if_pos ⟨hge, hlt⟩]
    rw [show (t.scroll_up n) = t.scroll_up_relative t.scroll_region.start n from rfl,
      Term.scroll_up_relative_cell t _ n hs (i - n) j, if_pos ⟨by omega, by omega⟩]
    congr 1
    omega
  · intro hge hlt
    rw [hdown, if_neg (by omega), if_pos ⟨hge, hlt⟩, Term.scroll_up_empty]

/-- Witness for `c2_amended` at the 4×4 marked state with `n = 1`: the
middle row 2 and the bottom row 3 keep their contents, row 0 becomes the
empty cell. -/
theorem c2_amended_witness :
    ((c2Term.scroll_up 1).scroll_down 1).grid.cell 3 0 = c2Term.grid.cell 3 0 ∧
    ((c2Term.scroll_up 1).scroll_down 1).grid.cell 0 0 = c2Term.empty_cell :=
  ⟨(c2_amended c2Term 1 3 0 (by decide) (by decide)).1 (by decide) (by decide),
   (c2_amended c2Term 1 0 0 (by decide) (by decide)).2 (by decide) (by decide)⟩

/-! ### C5: linefeed -/

/-- C5: with the cursor on the last region line (`cursor.line + 1 ==
scroll_region.end`), `linefeed` performs `scroll_up(1)` and leaves the
cursor line unchanged; otherwise it increments the cursor line and leaves
the grid untouched. -/
theorem c5_linefeed (t : Term) :
    (t.cursor.line + 1 = t.scroll_region.stop →
      t.linefeed = t.scroll_up 1 ∧ (t.linefeed).cursor.line = t.cursor.line) ∧
    (t.cursor.line + 1 ≠ t.scroll_region.stop →
      (t.linefeed).cursor.line = t.cursor.line + 1 ∧ (t.linefeed).grid = t.grid) := by
  constructor
  · intro h
    have he : t.linefeed = t.scroll_up 1 := by
      simp only [Term.linefeed, if_pos h]
    exact ⟨he, by rw [he, Term.scroll_up_cursor]⟩
  · intro h
    have he : t.linefeed = { t with cursor := { t.cursor with line := t.cursor.line + 1 } } := by
      simp only [Term.linefeed, if_neg h]
    rw [he]
    exact ⟨rfl, rfl⟩

/-- Witness for `c5_linefeed`: at line 3 of the 4×4 state the linefeed
equals `scroll_up(1)` and keeps the line; at line 0 it increments. -/
theorem c5_linefeed_witness :
    (c5Term.linefeed = c5Term.scroll_up 1 ∧
      (c5Term.linefeed).cursor.line = c5Term.cursor.line) ∧
    ((baseTerm.linefeed).cursor.line = baseTerm.cursor.line + 1 ∧
      (baseTerm.linefeed).grid = baseTerm.grid) :=
  ⟨(c5_linefeed c5Term).1 (by decide), (c5_linefeed baseTerm).2 (by decide)⟩

/-! ### C3: the dirty flag -/

/-- C3 counterexample: from a 4×4 state whose dirty flag has been cleared
(as the renderer does between frames), `input('A')` — a grid-mutating
handler call — leaves `dirty = false`: no handler sets `dirty`. -/
theorem c3_counterexample :
    c3Term.dirty = false ∧ (c3Term.input 'A').map Term.dirty = some false := by
  decide

/-- C3 (amended): no handler call modifies the `dirty` field; it is `true`
after construction and only external code (the renderer) changes it.
Each conjunct states that one handler leaves `dirty` equal to its prior
value (fallible handlers, compared under `Option.map`). -/
theorem c3_amended (t : Term) (ch : Char) (n line col w h : Nat)
    (attr : Attr) (lcm : LineClearMode) (cm : ClearMode) (am : AnsiMode)
    (region : LineRange) :
    ((t.input ch).map Term.dirty = (t.input ch).map fun _ => t.dirty) ∧
    (t.goto line col).dirty = t.dirty ∧
    (t.goto_line line).dirty = t.dirty ∧
    (t.goto_col col).dirty = t.dirty ∧
    (t.move_up n).dirty = t.dirty ∧
    (t.move_down n).dirty = t.dirty ∧
    (t.move_forward n).dirty = t.dirty ∧
    (t.move_backward n).dirty = t.dirty ∧
    (t.backspace).dirty = t.dirty ∧
    (t.carriage_return).dirty = t.dirty ∧
    (t.linefeed).dirty = t.dirty ∧
    (t.put_tab n).dirty = t.dirty ∧
    (t.scroll_up n).dirty = t.dirty ∧
    (t.scroll_down n).dirty = t.dirty ∧
    (t.insert_blank_lines n).dirty = t.dirty ∧
    (t.delete_lines n).dirty = t.dirty ∧
    ((t.erase_chars n).map Term.dirty = (t.erase_chars n).map fun _ => t.dirty) ∧
    ((t.delete_chars n).map Term.dirty = (t.delete_chars n).map fun _ => t.dirty) ∧
    ((t.insert_blank n).map Term.dirty = (t.insert_blank n).map fun _ => t.dirty) ∧
    ((t.clear_line lcm).map Term.dirty = (t.clear_line lcm).map fun _ => t.dirty) ∧
    ((t.clear_screen cm).map Term.dirty = (t.clear_screen cm).map fun _ => t.dirty) ∧
    (t.reverse_index).dirty = t.dirty ∧
    (t.terminal_attribute attr).dirty = t.dirty ∧
    (t.set_mode am).dirty = t.dirty ∧
    (t.unset_mode am).dirty = t.dirty ∧
    (t.set_scrolling_region region).dirty = t.dirty ∧
    (t.set_keypad_application_mode).dirty = t.dirty ∧
    (t.unset_keypad_application_mode).dirty = t.dirty ∧
    (t.swap_alt).dirty = t.dirty ∧
    ((t.resize w h).map Term.dirty = (t.resize w h).map fun _ => t.dirty) := by
  refine ⟨?_, rfl, rfl, rfl, rfl, rfl, rfl, rfl, rfl, rfl, ?_, rfl, rfl, rfl,
      ?_, ?_, ?_, ?_, ?_, ?_, ?_, ?_, ?_, ?_, ?_, rfl, rfl, rfl, ?_, ?_⟩
  · simp only [Term.input, Term.linefeed]
    split_ifs <;> rfl
  · simp only [Term.linefeed]
    split_ifs <;> rfl
  · simp only [Term.insert_blank_lines]
    split_ifs <;> rfl
  · simp only [Term.delete_lines]
    split_ifs <;> rfl
  · simp only [Term.erase_chars]
    split_ifs <;> rfl
  · simp only [Term.delete_chars]
    split_ifs <;> rfl
  · simp only [Term.insert_blank]
    split_ifs <;> rfl
  · cases lcm <;> (simp only [Term.clear_line]; split_ifs <;> rfl)
  · cases cm <;> (simp only [Term.clear_screen]; (try split_ifs) <;> rfl)
  · simp only [Term.reverse_index]
    split_ifs <;> rfl
  · cases attr <;> rfl
  · cases am <;> first
      | rfl
      | (simp only [Term.set_mode, Term.swap_alt]; split_ifs <;> rfl)
  · cases am <;> first
      | rfl
      | (simp only [Term.unset_mode, Term.swap_alt]; split_ifs <;> rfl)
  · simp only [Term.swap_alt]
    split_ifs <;> rfl
  · simp only [Term.resize]
    split_ifs <;> rfl

/-! ### C4: double swap_alt -/

/-- C4 counterexample: the reachable state produced by `swap_alt;
input('X')` is on the alternate screen with `X` at the origin; two more
`swap_alt` calls clear the active grid instead of restoring it, so the
cell at the origin ends as a blank, not `X`. -/
theorem c4_counterexample :
    c4_run.map Term.alt = some true ∧
    c4_run.map (fun t => (t.grid.cell 0 0).c) = some 'X' ∧
    c4_run.map (fun t => ((t.swap_alt.swap_alt).grid.cell 0 0).c) = some ' ' := by
  decide

/-- C4 (amended): for every state in which the alternate screen is not
active (`alt = false`), two successive `swap_alt` calls restore the active
grid and the cursor; starting from `alt = true` the cursor is restored but
the active grid is cleared on re-entering the alternate screen. -/
theorem c4_amended (t : Term) (h : t.alt = false) :
    (t.swap_alt.swap_alt).grid = t.grid ∧ (t.swap_alt.swap_alt).cursor = t.cursor := by
  simp [Term.swap_alt, h]

/-- Witness for `c4_amended` at the concrete 4×4 base state. -/
theorem c4_amended_witness :
    (baseTerm.swap_alt.swap_alt).grid = baseTerm.grid ∧
    (baseTerm.swap_alt.swap_alt).cursor = baseTerm.cursor :=
  c4_amended baseTerm rfl

/-! ### C9: terminal_attribute frame -/

/-- C9: `terminal_attribute(attr)` mutates only `template_cell` — the
grids, cursors, mode, scroll region, tabs, palette, default colors, the
empty cell, and the remaining fields are unchanged for every attribute. -/
theorem c9_terminal_attribute (t : Term) (attr : Attr) :
    (t.terminal_attribute attr).grid = t.grid ∧
    (t.terminal_attribute attr).alt_grid = t.alt_grid ∧
    (t.terminal_attribute attr).cursor = t.cursor ∧
    (t.terminal_attribute attr).alt_cursor = t.alt_cursor ∧
    (t.terminal_attribute attr).mode = t.mode ∧
    (t.terminal_attribute attr).scroll_region = t.scroll_region ∧
    (t.terminal_attribute attr).tabs = t.tabs ∧
    (t.terminal_attribute attr).colors = t.colors ∧
    (t.terminal_attribute attr).fg = t.fg ∧
    (t.terminal_attribute attr).bg = t.bg ∧
    (t.terminal_attribute attr).empty_cell = t.empty_cell ∧
    (t.terminal_attribute attr).size_info = t.size_info ∧
    (t.terminal_attribute attr).alt = t.alt ∧
    (t.terminal_attribute attr).dirty = t.dirty := by
  cases attr <;>
    exact ⟨rfl, rfl, rfl, rfl, rfl, rfl, rfl, rfl, rfl, rfl, rfl, rfl, rfl, rfl⟩

/-! ### C10: put_tab from a set tab stop -/

/-- The inner loop of `put_tab` does not move off a set tab stop. -/
theorem nextStop_at_stop (tabs : List Bool) (cols col : Nat)
    (htab : tabs.getD col false = true) : nextStop tabs cols col = col := by
  have hcond : ¬ (col < cols ∧ tabs.getD col false = false) := by
    rw [htab]
    simp
  rw [nextStop, dif_neg hcond]

/-- The outer loop of `put_tab` never moves off a set tab stop. -/
theorem putTabGo_fixed (tabs : List Bool) (cols col : Nat)
    (htab : tabs.getD col false = true) :
    ∀ count, putTabGo tabs cols col count = col := by
  intro count
  induction count with
  | zero => rfl
  | succ k ih =>
    simp only [putTabGo]
    rw [nextStop_at_stop tabs cols col htab]
    split_ifs with h
    · exact ih
    · rfl

/-- C10: with the cursor in bounds on a set tab stop, `put_tab(count)`
leaves the cursor column unchanged for every count: the first inner
iteration breaks immediately, so the cursor never advances. -/
theorem c10_put_tab (t : Term) (count : Nat)
    (_hcol : t.cursor.col < t.grid.cols)
    (htab : t.tabs.getD t.cursor.col false = true) :
    (t.put_tab count).cursor.col = t.cursor.col :=
  putTabGo_fixed t.tabs t.grid.cols t.cursor.col htab count

/-- Witness for `c10_put_tab`: a 4×16 state with the cursor on the tab
stop at column 8. -/
theorem c10_put_tab_witness :
    (c10Term.put_tab 3).cursor.col = c10Term.cursor.col :=
  c10_put_tab c10Term 3 (by decide) (by decide)

/-! ### C6: erase_chars / delete_chars totality -/

/-- C6: with the cursor in bounds at column 2 of a 4-column grid,
`erase_chars(3)` computes the row slice `[2, 5)`, which exceeds the
4-cell row and aborts; `delete_chars(3)` clamps the count only to
`num_cols` and slices `line[5..]`, also aborting.  The handlers are not
total when `cursor.col + count` exceeds `num_cols`. -/
theorem c6_erase_delete_abort :
    c6Term.cursor.line < c6Term.grid.lines ∧ c6Term.cursor.col < c6Term.grid.cols ∧
    (c6Term.erase_chars 3).isSome = false ∧ (c6Term.delete_chars 3).isSome = false := by
  decide

/-! ### C7: resize to zero lines or columns -/

/-- C7 counterexample: resizing the 4×4 base state to pixel size 0×0
(zero lines and zero columns) aborts — the `tabs[0]` assignment indexes an
empty vector — instead of clamping the grid to 1×1. -/
theorem c7_counterexample : (baseTerm.resize 0 0).isSome = false := by
  decide

/-- C7 (amended): `resize` performs no clamping.  When the dimensions
changed and the new column count is zero it aborts at `tabs[0]`; when the
new column count is positive but the new line count is zero it completes
and leaves a grid with zero lines. -/
theorem c7_amended (t : Term) (w h : Nat) :
    (¬ (t.size_info.width / t.size_info.cell_width = w / t.size_info.cell_width ∧
        t.size_info.height / t.size_info.cell_height = h / t.size_info.cell_height) →
      w / t.size_info.cell_width = 0 →
      t.resize w h = none) ∧
    (¬ (t.size_info.width / t.size_info.cell_width = w / t.size_info.cell_width ∧
        t.size_info.height / t.size_info.cell_height = h / t.size_info.cell_height) →
      0 < w / t.size_info.cell_width → h / t.size_info.cell_height = 0 →
      (t.resize w h).map (fun u => u.grid.lines) = some 0) := by
  constructor
  · intro hne hzero
    simp only [Term.resize, SizeInfo.cols, SizeInfo.lines]
    rw [if_neg hne, if_pos hzero]
  · intro hne hpos hlines
    simp only [Term.resize, SizeInfo.cols, SizeInfo.lines]
    rw [if_neg hne, if_neg (by omega)]
    simp only [Option.map_some', Grid.clear_region, Grid.resize]
    rw [hlines]

/-- Witness for `c7_amended` at the 4×4 base state: resizing to 0×0
aborts; resizing to width 4, height 0 yields a zero-line grid. -/
theorem c7_amended_witness :
    baseTerm.resize 0 0 = none ∧
    (baseTerm.resize 4 0).map (fun u => u.grid.lines) = some 0 :=
  ⟨(c7_amended baseTerm 0 0).1 (by decide) (by decide),
   (c7_amended baseTerm 4 0).2 (by decide) (by decide) (by decide)⟩

/-! ### C8: the tab-stop invariant -/

theorem tabsList_length (cols : Nat) : (tabsList cols).length = cols := by
  simp [tabsList]

theorem tabsList_zero (cols : Nat) (h : 0 < cols) :
    (tabsList cols).getD 0 true = false := by
  unfold tabsList
  rw [List.getD_eq_getElem?_getD, List.getElem?_set_self']
  simp [h]

theorem tabsList_pos (cols i : Nat) (hi : i < cols) (h0 : 0 < i) :
    (tabsList cols).getD i false = decide (i % 8 = 0) := by
  unfold tabsList
  rw [List.getD_eq_getElem?_getD, List.getElem?_set_ne (by omega)]
  simp [List.getElem?_map, List.getElem?_range, hi, TAB_SPACES]

/-- `TabsProps` only looks at `tabs` and the grid width. -/
theorem tabsProps_congr (t t' : Term) (htabs : t'.tabs = t.tabs)
    (hcols : t'.grid.cols = t.grid.cols) (h : TabsProps t) : TabsProps t' := by
  unfold TabsProps at *
  rw [htabs, hcols]
  exact h

theorem Term.scroll_up_relative_cols (t : Term) (o n : Nat) :
    (t.scroll_up_relative o n).grid.cols = t.grid.cols := by
  show (Grid.scrollUpAux n o
      (t.grid.clear_region o (o + n) t.empty_cell)
      (t.scroll_region.stop - n - o)).cols = t.grid.cols
  rw [Grid.scrollUpAux_cols]
  rfl

theorem Term.scroll_down_relative_cols (t : Term) (o n : Nat) :
    (t.scroll_down_relative o n).grid.cols = t.grid.cols := by
  show (Grid.scrollDownAux n (o + n)
      (t.grid.clear_region (t.scroll_region.stop - n) t.scroll_region.stop t.empty_cell)
      (t.scroll_region.stop - (o + n))).cols = t.grid.cols
  rw [Grid.scrollDownAux_cols]
  rfl

theorem Term.scroll_up_cols (t : Term) (n : Nat) :
    (t.scroll_up n).grid.cols = t.grid.cols :=
  Term.scroll_up_relative_cols t _ n

theorem Term.scroll_down_cols (t : Term) (n : Nat) :
    (t.scroll_down n).grid.cols = t.grid.cols :=
  Term.scroll_down_relative_cols t _ n

theorem Term.linefeed_tabs (t : Term) : t.linefeed.tabs = t.tabs := by
  unfold Term.linefeed
  split_ifs <;> rfl

theorem Term.linefeed_cols (t : Term) : t.linefeed.grid.cols = t.grid.cols := by
  unfold Term.linefeed
  split_ifs with h
  · exact Term.scroll_up_cols t 1
  · rfl

/-- C8: after construction and after every handler call the tab stops
satisfy the claimed invariant — `tabs.length = num_cols`, `tabs[0]` is
`false`, and for `0 < i < num_cols`, `tabs[i]` holds exactly when
`i % 8 = 0`.  Construction and a successful `resize` establish it afresh;
every other handler preserves it (the `swap_alt`-involving conjuncts
additionally assume the two grids agree in width, a global invariant of
reachable states). -/
theorem c8_tabs (t : Term) (w h cw chgt : Nat) (fg bg : Rgb) (colors : Fin 16 → Rgb)
    (ch : Char) (n line col : Nat) (attr : Attr) (lcm : LineClearMode)
    (cm : ClearMode) (am : AnsiMode) (region : LineRange) :
    ((Term.new w h cw chgt fg bg colors).elim True TabsProps) ∧
    (TabsProps t → (t.resize w h).elim True TabsProps) ∧
    (TabsProps t → (t.input ch).elim True TabsProps) ∧
    (TabsProps t → TabsProps (t.goto line col)) ∧
    (TabsProps t → TabsProps (t.goto_line line)) ∧
    (TabsProps t → TabsProps (t.goto_col col)) ∧
    (TabsProps t → TabsProps (t.move_up n)) ∧
    (TabsProps t → TabsProps (t.move_down n)) ∧
    (TabsProps t → TabsProps (t.move_forward n)) ∧
    (TabsProps t → TabsProps (t.move_backward n)) ∧
    (TabsProps t → TabsProps t.backspace) ∧
    (TabsProps t → TabsProps t.carriage_return) ∧
    (TabsProps t → TabsProps t.linefeed) ∧
    (TabsProps t → TabsProps (t.put_tab n)) ∧
    (TabsProps t → TabsProps (t.scroll_up n)) ∧
    (TabsProps t → TabsProps (t.scroll_down n)) ∧
    (TabsProps t → TabsProps (t.insert_blank_lines n)) ∧
    (TabsProps t → TabsProps (t.delete_lines n)) ∧
    (TabsProps t → (t.erase_chars n).elim True TabsProps) ∧
    (TabsProps t → (t.delete_chars n).elim True TabsProps) ∧
    (TabsProps t → (t.insert_blank n).elim True TabsProps) ∧
    (TabsProps t → (t.clear_line lcm).elim True TabsProps) ∧
    (TabsProps t → (t.clear_screen cm).elim True TabsProps) ∧
    (TabsProps t → TabsProps t.reverse_index) ∧
    (TabsProps t → TabsProps (t.terminal_attribute attr)) ∧
    (TabsProps t → t.alt_grid.cols = t.grid.cols → TabsProps (t.set_mode am)) ∧
    (TabsProps t → t.alt_grid.cols = t.grid.cols → TabsProps (t.unset_mode am)) ∧
    (TabsProps t → TabsProps (t.set_scrolling_region region)) ∧
    (TabsProps t → TabsProps t.set_keypad_application_mode) ∧
    (TabsProps t → TabsProps t.unset_keypad_application_mode) ∧
    (TabsProps t → t.alt_grid.cols = t.grid.cols → TabsProps t.swap_alt) := by
  refine ⟨?_, ?_, ?_, ?_, ?_, ?_, ?_, ?_, ?_, ?_, ?_, ?_, ?_, ?_, ?_, ?_, ?_,
      ?_, ?_, ?_, ?_, ?_, ?_, ?_, ?_, ?_, ?_, ?_, ?_, ?_, ?_⟩
  · simp only [Term.new]
    split_ifs with hc
    · trivial
    · exact ⟨tabsList_length _, tabsList_zero _ (by omega),
        fun i hi h0 => tabsList_pos _ i hi h0⟩
  · intro ht
    simp only [Term.resize]
    split_ifs <;> first
      | trivial
      | exact tabsProps_congr t _ rfl rfl ht
      | exact ⟨tabsList_length _, tabsList_zero _ (by omega),
          fun i hi h0 => tabsList_pos _ i hi h0⟩
  · intro ht
    simp only [Term.input]
    split_ifs <;> first
      | trivial
      | exact tabsProps_congr t _ rfl rfl ht
      | exact tabsProps_congr t _ (Term.linefeed_tabs t) (Term.linefeed_cols t) ht
  · exact fun ht => tabsProps_congr t _ rfl rfl ht
  · exact fun ht => tabsProps_congr t _ rfl rfl ht
  · exact fun ht => tabsProps_congr t _ rfl rfl ht
  · exact fun ht => tabsProps_congr t _ rfl rfl ht
  · exact fun ht => tabsProps_congr t _ rfl rfl ht
  · exact fun ht => tabsProps_congr t _ rfl rfl ht
  · exact fun ht => tabsProps_congr t _ rfl rfl ht
  · exact fun ht => tabsProps_congr t _ rfl rfl ht
  · exact fun ht => tabsProps_congr t _ rfl rfl ht
  · exact fun ht => tabsProps_congr t _ (Term.linefeed_tabs t) (Term.linefeed_cols t) ht
  · exact fun ht => tabsProps_congr t _ rfl rfl ht
  · exact fun ht => tabsProps_congr t _ rfl (Term.scroll_up_cols t n) ht
  · exact fun ht => tabsProps_congr t _ rfl (Term.scroll_down_cols t n) ht
  · intro ht
    simp only [Term.insert_blank_lines]
    split_ifs
    · exact tabsProps_congr t _ rfl (Term.scroll_down_relative_cols t _ n) ht
    · exact ht
  · intro ht
    simp only [Term.delete_lines]
    split_ifs
    · exact tabsProps_congr t _ rfl (Term.scroll_up_relative_cols t _ n) ht
    · exact ht
  · intro ht
    simp only [Term.erase_chars]
    split_ifs <;> first | exact tabsProps_congr t _ rfl rfl ht | trivial
  · intro ht
    simp only [Term.delete_chars]
    split_ifs <;> first | exact tabsProps_congr t _ rfl rfl ht | trivial
  · intro ht
    simp only [Term.insert_blank]
    split_ifs <;> first | exact tabsProps_congr t _ rfl rfl ht | trivial
  · intro ht
    cases lcm
    all_goals simp only [Term.clear_line]
    all_goals split_ifs <;> first | exact tabsProps_congr t _ rfl rfl ht | trivial
  · intro ht
    cases cm
    all_goals simp only [Term.clear_screen]
    all_goals (try split_ifs) <;> first | exact tabsProps_congr t _ rfl rfl ht | trivial
  · intro ht
    simp only [Term.reverse_index]
    split_ifs
    · exact tabsProps_congr t _ rfl (Term.scroll_down_cols t 1) ht
    · exact ht
  · exact fun ht => by
      cases attr <;> exact tabsProps_congr t _ rfl rfl ht
  · intro ht hag
    cases am <;> try exact tabsProps_congr t _ rfl rfl ht
    simp only [Term.set_mode, Term.swap_alt]
    split_ifs <;> exact tabsProps_congr t _ rfl hag ht
  · intro ht hag
    cases am <;> try exact tabsProps_congr t _ rfl rfl ht
    simp only [Term.unset_mode, Term.swap_alt]
    split_ifs <;> exact tabsProps_congr t _ rfl hag ht
  · exact fun ht => tabsProps_congr t _ rfl rfl ht
  · exact fun ht => tabsProps_congr t _ rfl rfl ht
  · exact fun ht => tabsProps_congr t _ rfl rfl ht
  · intro ht hag
    simp only [Term.swap_alt]
    split_ifs <;> exact tabsProps_congr t _ rfl hag ht

/-- Witness for `c8_tabs`: the invariant holds after a cursor move and
after `swap_alt` on the concrete 4×4 base state. -/
theorem c8_tabs_witness :
    TabsProps (baseTerm.goto 1 1) ∧ TabsProps baseTerm.swap_alt :=
  ⟨(c8_tabs baseTerm 4 4 1 1 default default (fun _ => default) 'A' 1 1 1
      Attr.Other LineClearMode.All ClearMode.All AnsiMode.OtherMode
      ⟨0, 4⟩).2.2.2.1 (by decide),
   (c8_tabs baseTerm 4 4 1 1 default default (fun _ => default) 'A' 1 1 1
      Attr.Other LineClearMode.All ClearMode.All AnsiMode.OtherMode
      ⟨0, 4⟩).2.2.2.2.2.2.2.2.2.2.2.2.2.2.2.2.2.2.2.2.2.2.2.2.2.2.2.2.2.2
      (by decide) rfl⟩
